import Mathlib

/-!
CanvasStudio core: shallow embedding and verification.

This file embeds the compositing core of the CanvasStudio image-framing
tool (transform model, crop engine, ratio resolver, LUT processor, export
coordinate mapper) as executable Lean definitions over `ℚ` (JavaScript
numbers are modelled as exact rationals), and proves or refutes the
specification's claims about it.

Sources embedded:
- `src/lib/canvas/constants.ts` (SCALE, SNAP constants)
- `src/lib/canvas/math.ts` (`computeFitScale`, `computeDefaultScale`)
- `src/lib/canvas/crop.ts` (`clampCropToBounds`, `resizeCropFromHandle`,
  `resizeCropFree`, `resizeCropAspectLocked`, `moveCrop`,
  `getEffectiveDimensions`, `getCropCenterOffset`)
- `src/lib/canvas/transform.ts` (`computeInitialTransform`,
  `createImageSnapshot`)
- `src/lib/canvas/ratios.ts` (`findRatioValue`)
- `src/lib/export/exportCanvas.ts` (`exportComposite`, the arguments it
  passes to the shared `renderScene`)
- `src/state/canvasStore.ts` (`resetTransform` / `fitCurrentImageToPreview`,
  `setCropAspectLock`)
- `src/lib/filters/processor.ts` (`trilinearInterpolation`,
  `applyLUTToCanvas` pixel loop)
- the `.cube` loader (`CubeLoader.load`) and
  `src/lib/filters/formats/base.ts` (`validateLUTData`)
-/

namespace CanvasStudio

/-- JavaScript-style truthiness of an optional number: `undefined` and `0`
are falsy, everything else truthy (used by `crop.aspectLock && crop.lockedAspect`). -/
def aspectTruthy : Option ℚ → Prop
  | none => False
  | some a => a ≠ 0

instance : DecidablePred aspectTruthy := fun o =>
  match o with
  | none => isFalse (fun h => h)
  | some a => inferInstanceAs (Decidable (a ≠ 0))

/-- Embeds `Math.round` for a non-negative JS number: round half away from zero,
which for non-negative arguments is `⌊q + 1/2⌋`. -/
def jsRound (q : ℚ) : ℤ := ⌊q + 1 / 2⌋

/-- Embeds `TransformState {x, y, scale}` from `src/types/canvas`. -/
structure TransformState where
  x : ℚ
  y : ℚ
  scale : ℚ
  deriving DecidableEq, Repr

/-- Embeds `CropState` from `src/types/canvas`: normalized (0–1) rectangle plus
aspect-lock flag and optional locked target pixel aspect. -/
structure CropState where
  x : ℚ
  y : ℚ
  width : ℚ
  height : ℚ
  aspectLock : Bool
  lockedAspect : Option ℚ := none
  deriving DecidableEq, Repr

/-- The part of `ImageMetadata` the geometry uses: native pixel size. -/
structure ImageMetadata where
  width : ℚ
  height : ℚ
  deriving DecidableEq, Repr

/-- Embeds `SCALE` constants from `src/lib/canvas/constants.ts`. -/
def SCALE_MIN : ℚ := 5 / 100

def SCALE_MAX : ℚ := 8

def SCALE_DEFAULT_MULTIPLIER : ℚ := 95 / 100

/-- Embeds `MIN_CROP_SIZE` (the `minSize` local in `clampCropToBounds`). -/
def MIN_CROP_SIZE : ℚ := 5 / 100

/-- Embeds `clamp` from `src/lib/canvas/math.ts`. -/
def clamp (value lo hi : ℚ) : ℚ := min (max value lo) hi

/-- Embeds `getEffectiveDimensions` from `src/lib/canvas/crop.ts`:
native dims, or `(nativeW·crop.width, nativeH·crop.height)` with a crop. -/
def getEffectiveDimensions (image : ImageMetadata) (crop : Option CropState) : ℚ × ℚ :=
  match crop with
  | none => (image.width, image.height)
  | some c => (image.width * c.width, image.height * c.height)

/-- Embeds `getCropCenterOffset` from `src/lib/canvas/crop.ts`: pixel offset from
image center to crop-rect center. -/
def getCropCenterOffset (image : ImageMetadata) (crop : Option CropState) : ℚ × ℚ :=
  match crop with
  | none => (0, 0)
  | some c =>
    let cropCenterX := c.x + c.width / 2
    let cropCenterY := c.y + c.height / 2
    ((cropCenterX - 1 / 2) * image.width, (cropCenterY - 1 / 2) * image.height)

/-- Embeds `computeFitScale` from `src/lib/canvas/math.ts`: min of per-axis fit
over crop-aware effective dims, with `SCALE.MIN` fallback for non-positive
inputs. -/
def computeFitScale (image : ImageMetadata) (canvasWidth canvasHeight : ℚ)
    (crop : Option CropState) : ℚ :=
  let dims := getEffectiveDimensions image crop
  if canvasWidth ≤ 0 ∨ canvasHeight ≤ 0 ∨ dims.1 ≤ 0 ∨ dims.2 ≤ 0 then
    SCALE_MIN
  else
    min (canvasWidth / dims.1) (canvasHeight / dims.2)

/-- Embeds `computeDefaultScale` from `src/lib/canvas/math.ts`. -/
def computeDefaultScale (image : ImageMetadata) (canvasWidth canvasHeight : ℚ)
    (crop : Option CropState) : ℚ :=
  max (computeFitScale image canvasWidth canvasHeight crop * SCALE_DEFAULT_MULTIPLIER) SCALE_MIN

/-- Embeds `computeInitialTransform` from `src/lib/canvas/transform.ts`. -/
def computeInitialTransform (image : ImageMetadata) (canvasWidth canvasHeight : ℚ)
    (crop : Option CropState) : TransformState :=
  let scale := computeDefaultScale image canvasWidth canvasHeight crop
  let cropOffset := getCropCenterOffset image crop
  { x := -cropOffset.1 * scale, y := -cropOffset.2 * scale, scale := scale }

/-- Embeds `fitCurrentImageToPreview` from `src/state/canvasStore.ts`: refits the
active image to the preview size via `computeInitialTransform` (no crop is
passed). `resetTransform` and `fitImageToCanvas` both call this. -/
def fitCurrentImageToPreview (image : ImageMetadata) (previewSize : ℚ × ℚ) : TransformState :=
  computeInitialTransform image previewSize.1 previewSize.2 none

/-- Embeds `resetTransform` from `src/state/canvasStore.ts` (lines 239–241): it
just calls `fitCurrentImageToPreview`. -/
def resetTransform (image : ImageMetadata) (previewSize : ℚ × ℚ) : TransformState :=
  fitCurrentImageToPreview image previewSize

/-- Embeds `RatioOptionId` from `src/types/canvas`: the ids in `RATIO_PRESETS`
of `src/lib/canvas/ratios.ts` plus `original` and `custom`. -/
inductive RatioOptionId where
  | square      -- '1:1'
  | landscape32 -- '3:2'
  | portrait23  -- '2:3'
  | landscape54 -- '5:4'
  | portrait45  -- '4:5'
  | wide169     -- '16:9'
  | story916    -- '9:16'
  | original
  | custom
  deriving DecidableEq, Repr

/-- The numeric `value` column of `RATIO_PRESETS` (null for `original` and
`custom`). -/
def RATIO_PRESETS : List (RatioOptionId × Option ℚ) :=
  [(.square, some 1), (.landscape32, some (3 / 2)), (.portrait23, some (2 / 3)),
   (.landscape54, some (5 / 4)), (.portrait45, some (4 / 5)),
   (.wide169, some (16 / 9)), (.story916, some (9 / 16)),
   (.original, none), (.custom, none)]

/-- The `params` record taken by `findRatioValue`. -/
structure FindRatioParams where
  custom : ℚ × ℚ
  image : Option ImageMetadata := none
  crop : Option CropState := none

/-- Embeds `findRatioValue` from `src/lib/canvas/ratios.ts` (crop-aware version):
`original` uses the cropped aspect when a crop exists, `custom` guards
non-positive input with fallback 1, presets are looked up in the table. -/
def findRatioValue (id : RatioOptionId) (params : FindRatioParams) : ℚ :=
  if id = .original then
    match params.image with
    | some image =>
      match params.crop with
      | some crop => (image.width * crop.width) / (image.height * crop.height)
      | none => image.width / image.height
    | none => 1
  else if id = .custom then
    if 0 < params.custom.1 ∧ 0 < params.custom.2 then
      params.custom.1 / params.custom.2
    else 1
  else
    ((RATIO_PRESETS.find? (fun preset => preset.1 = id)).bind (fun preset => preset.2)).getD 1

/-- The `dimensions` field of a `CanvasSnapshot`. -/
structure SnapshotDimensions where
  baseWidth : ℚ
  baseHeight : ℚ
  ratioVal : ℚ
  deriving DecidableEq, Repr

/-- The fields of `CanvasSnapshot` consumed by `exportComposite`. -/
structure CanvasSnapshot where
  image : Option ImageMetadata
  transform : TransformState
  crop : Option CropState
  background : String
  dimensions : SnapshotDimensions
  ratioId : RatioOptionId
  previewSize : Option (ℚ × ℚ)

/-- Embeds `createImageSnapshot` from `src/lib/canvas/transform.ts`: export
dimensions are the effective (cropped) width and `baseWidth / ratio`. -/
def createImageSnapshot (image : ImageMetadata) (transform : TransformState)
    (crop : Option CropState) (canvasWidth canvasHeight : ℚ)
    (background : String) (ratioId : RatioOptionId) (customRatioDims : ℚ × ℚ) :
    CanvasSnapshot :=
  let effectiveDims := getEffectiveDimensions image crop
  let ratioVal := findRatioValue ratioId
    { custom := customRatioDims, image := some image, crop := crop }
  let baseWidth := effectiveDims.1
  let baseHeight := baseWidth / ratioVal
  { image := some image
    transform := transform
    crop := crop
    background := background
    dimensions := { baseWidth := baseWidth, baseHeight := baseHeight, ratioVal := ratioVal }
    ratioId := ratioId
    previewSize := some (canvasWidth, canvasHeight) }

/-- The arguments `exportComposite` passes to the shared `renderScene`. -/
structure RenderSceneArgs where
  width : ℚ
  height : ℚ
  background : String
  transform : TransformState
  crop : Option CropState
  image : ImageMetadata

/-- Embeds `exportComposite` from `src/lib/export/exportCanvas.ts`, up to the
`renderScene` call: target size is `dimensions.baseWidth × dimensions.baseHeight`,
`scaleFactor = targetWidth / previewWidth`, and the preview transform is
scaled uniformly by it; throws when the snapshot has no image. -/
def exportComposite (snapshot : CanvasSnapshot) : Except String RenderSceneArgs :=
  match snapshot.image with
  | none => .error "Import an image before exporting."
  | some image =>
    let targetWidth := snapshot.dimensions.baseWidth
    let targetHeight := snapshot.dimensions.baseHeight
    let previewWidth := (snapshot.previewSize.map Prod.fst).getD targetWidth
    let scaleFactor := targetWidth / previewWidth
    .ok
      { width := targetWidth
        height := targetHeight
        background := snapshot.background
        transform :=
          { x := snapshot.transform.x * scaleFactor
            y := snapshot.transform.y * scaleFactor
            scale := snapshot.transform.scale * scaleFactor }
        crop := snapshot.crop
        image := image }

/-- The eight resize handles of `resizeCropFromHandle`. -/
inductive Handle where
  | nw | north | ne | east | se | south | sw | west
  deriving DecidableEq, Repr

/-- First reassignment in the aspect-locked branch of `clampCropToBounds`:
scale down uniformly if either dimension exceeds 1. -/
def clampLockedScaleDown (p : ℚ × ℚ) : ℚ × ℚ :=
  if 1 < p.1 ∨ 1 < p.2 then
    let scale := min (1 / p.1) (1 / p.2)
    (p.1 * scale, p.2 * scale)
  else p

/-- Second reassignment in the aspect-locked branch of `clampCropToBounds`:
scale up uniformly if either dimension is below `minSize`. -/
def clampLockedScaleUp (p : ℚ × ℚ) : ℚ × ℚ :=
  if p.1 < MIN_CROP_SIZE ∨ p.2 < MIN_CROP_SIZE then
    let scale := max (MIN_CROP_SIZE / p.1) (MIN_CROP_SIZE / p.2)
    (p.1 * scale, p.2 * scale)
  else p

/-- Locked-aspect dimension clamp: the body of the
`crop.aspectLock && crop.lockedAspect` branch of `clampCropToBounds`
(the two sequential reassignments above). -/
def clampLockedDims (w h : ℚ) : ℚ × ℚ :=
  clampLockedScaleUp (clampLockedScaleDown (w, h))

/-- Embeds `clampCropToBounds` from `src/lib/canvas/crop.ts`: aspect-locked crops
get the uniform dimension clamp, free crops clamp each axis independently
into `[minSize, 1]`; position is then clamped to `[0, 1-width] × [0, 1-height]`. -/
def clampCropToBounds (crop : CropState) : CropState :=
  let dims : ℚ × ℚ :=
    if crop.aspectLock = true ∧ aspectTruthy crop.lockedAspect then
      clampLockedDims crop.width crop.height
    else
      (max MIN_CROP_SIZE (min 1 crop.width), max MIN_CROP_SIZE (min 1 crop.height))
  { crop with
    x := max 0 (min (1 - dims.1) crop.x)
    y := max 0 (min (1 - dims.2) crop.y)
    width := dims.1
    height := dims.2 }

/-- Embeds `resizeCropFree` from `src/lib/canvas/crop.ts`: each handle drives its
associated edges directly, then clamps. -/
def resizeCropFree (crop : CropState) (handle : Handle) (delta : ℚ × ℚ) : CropState :=
  let dx := delta.1
  let dy := delta.2
  let next : ℚ × ℚ × ℚ × ℚ :=
    match handle with
    | .nw => (crop.x + dx, crop.y + dy, crop.width - dx, crop.height - dy)
    | .north => (crop.x, crop.y + dy, crop.width, crop.height - dy)
    | .ne => (crop.x, crop.y + dy, crop.width + dx, crop.height - dy)
    | .east => (crop.x, crop.y, crop.width + dx, crop.height)
    | .se => (crop.x, crop.y, crop.width + dx, crop.height + dy)
    | .south => (crop.x, crop.y, crop.width, crop.height + dy)
    | .sw => (crop.x + dx, crop.y, crop.width - dx, crop.height + dy)
    | .west => (crop.x + dx, crop.y, crop.width - dx, crop.height)
  clampCropToBounds
    { crop with x := next.1, y := next.2.1, width := next.2.2.1, height := next.2.2.2 }

/-- Embeds `resizeCropAspectLocked` from `src/lib/canvas/crop.ts`: edge handles
drive one dimension and derive the other from the (normalized) aspect,
re-centering on the perpendicular axis; corner handles compute two
candidate widths and pick the smaller, anchoring the opposite corner.
Dimensions are floored at 0.05, then bounds-clamping is the last step. -/
def resizeCropAspectLocked (crop : CropState) (handle : Handle) (delta : ℚ × ℚ)
    (aspect : ℚ) : CropState :=
  let dx := delta.1
  let dy := delta.2
  let next : ℚ × ℚ × ℚ × ℚ :=
    match handle with
    | .east =>
      let newWidth := crop.width + dx
      let newHeight := newWidth / aspect
      (crop.x, crop.y + (crop.height - newHeight) / 2, newWidth, newHeight)
    | .west =>
      let newWidth := crop.width - dx
      let newHeight := newWidth / aspect
      (crop.x + crop.width - newWidth, crop.y + (crop.height - newHeight) / 2,
        newWidth, newHeight)
    | .south =>
      let newHeight := crop.height + dy
      let newWidth := newHeight * aspect
      (crop.x + (crop.width - newWidth) / 2, crop.y, newWidth, newHeight)
    | .north =>
      let newHeight := crop.height - dy
      let newWidth := newHeight * aspect
      (crop.x + (crop.width - newWidth) / 2, crop.y + crop.height - newHeight,
        newWidth, newHeight)
    | .se =>
      let widthFromDx := crop.width + dx
      let heightFromDy := crop.height + dy
      let widthFromHeight := heightFromDy * aspect
      if widthFromDx < widthFromHeight then
        let newWidth := max (5 / 100) widthFromDx
        (crop.x, crop.y, newWidth, newWidth / aspect)
      else
        let newHeight := max (5 / 100) heightFromDy
        (crop.x, crop.y, newHeight * aspect, newHeight)
    | .sw =>
      let widthFromDx := crop.width - dx
      let heightFromDy := crop.height + dy
      let widthFromHeight := heightFromDy * aspect
      let wh : ℚ × ℚ :=
        if widthFromDx < widthFromHeight then
          let newWidth := max (5 / 100) widthFromDx
          (newWidth, newWidth / aspect)
        else
          let newHeight := max (5 / 100) heightFromDy
          (newHeight * aspect, newHeight)
      (crop.x + crop.width - wh.1, crop.y, wh.1, wh.2)
    | .ne =>
      let widthFromDx := crop.width + dx
      let heightFromDy := crop.height - dy
      let widthFromHeight := heightFromDy * aspect
      let wh : ℚ × ℚ :=
        if widthFromDx < widthFromHeight then
          let newWidth := max (5 / 100) widthFromDx
          (newWidth, newWidth / aspect)
        else
          let newHeight := max (5 / 100) heightFromDy
          (newHeight * aspect, newHeight)
      (crop.x, crop.y + crop.height - wh.2, wh.1, wh.2)
    | .nw =>
      let widthFromDx := crop.width - dx
      let heightFromDy := crop.height - dy
      let widthFromHeight := heightFromDy * aspect
      let wh : ℚ × ℚ :=
        if widthFromDx < widthFromHeight then
          let newWidth := max (5 / 100) widthFromDx
          (newWidth, newWidth / aspect)
        else
          let newHeight := max (5 / 100) heightFromDy
          (newHeight * aspect, newHeight)
      (crop.x + crop.width - wh.1, crop.y + crop.height - wh.2, wh.1, wh.2)
  clampCropToBounds
    { crop with
      x := next.1
      y := next.2.1
      width := max (5 / 100) next.2.2.1
      height := max (5 / 100) next.2.2.2 }

/-- Embeds `resizeCropFromHandle` from `src/lib/canvas/crop.ts`: falls back to a
free resize when `aspectLock` is false or `lockedAspect` is falsy
(`undefined` or `0`); otherwise converts the stored pixel aspect to a
normalized aspect (`lockedAspect / imageAspect`) and resizes aspect-locked. -/
def resizeCropFromHandle (crop : CropState) (handle : Handle) (delta : ℚ × ℚ)
    (imageAspect : ℚ := 1) : CropState :=
  if crop.aspectLock = true ∧ aspectTruthy crop.lockedAspect then
    resizeCropAspectLocked crop handle delta ((crop.lockedAspect.getD 0) / imageAspect)
  else
    resizeCropFree crop handle delta

/-- Embeds `moveCrop` from `src/lib/canvas/crop.ts`: translate position by the
delta, then clamp. -/
def moveCrop (crop : CropState) (delta : ℚ × ℚ) : CropState :=
  clampCropToBounds { crop with x := crop.x + delta.1, y := crop.y + delta.2 }

/-- The crop update made by `setCropAspectLock(lock, aspect?)` in
`src/state/canvasStore.ts`: sets `aspectLock` and sets `lockedAspect` to
the given aspect when locking (which may be absent), `undefined` otherwise. -/
def setCropAspectLockCrop (crop : CropState) (lock : Bool) (aspect : Option ℚ) : CropState :=
  { crop with aspectLock := lock, lockedAspect := if lock then aspect else none }

/-- Embeds `LUTData` from `src/types/filter`: cube size and flat table
(length `size³·3`, values normalized to [0,1], indexed
`(b·size² + g·size + r)·3 + channel`). -/
structure LUTData where
  size : ℕ
  data : List ℚ

/-- The `getLUTValue` helper inside `trilinearInterpolation`:
`data[(bi·size² + gi·size + ri)·3 + channel]`. -/
def getLUTValue (lut : LUTData) (ri gi bi : ℤ) (channel : ℕ) : ℚ :=
  lut.data.getD ((bi * lut.size * lut.size + gi * lut.size + ri) * 3 + channel).toNat 0

/-- One output channel of `trilinearInterpolation`: sequential linear
interpolation along the blue, then green, then red axis of the 8 cube
corners. -/
def trilinearChannel (lut : LUTData) (r0 r1 g0 g1 b0 b1 : ℤ)
    (rFrac gFrac bFrac : ℚ) (channel : ℕ) : ℚ :=
  let c00 := getLUTValue lut r0 g0 b0 channel * (1 - bFrac) +
    getLUTValue lut r0 g0 b1 channel * bFrac
  let c01 := getLUTValue lut r0 g1 b0 channel * (1 - bFrac) +
    getLUTValue lut r0 g1 b1 channel * bFrac
  let c10 := getLUTValue lut r1 g0 b0 channel * (1 - bFrac) +
    getLUTValue lut r1 g0 b1 channel * bFrac
  let c11 := getLUTValue lut r1 g1 b0 channel * (1 - bFrac) +
    getLUTValue lut r1 g1 b1 channel * bFrac
  let c0 := c00 * (1 - gFrac) + c01 * gFrac
  let c1 := c10 * (1 - gFrac) + c11 * gFrac
  c0 * (1 - rFrac) + c1 * rFrac

/-- Embeds `trilinearInterpolation` from `src/lib/filters/processor.ts`: clamp the
input to [0,1]³, scale to `[0, size-1]`, take floor/ceil neighbours per
axis, and interpolate the 8 corners blue→green→red. -/
def trilinearInterpolation (lut : LUTData) (r g b : ℚ) : ℚ × ℚ × ℚ :=
  let rc := max 0 (min 1 r)
  let gc := max 0 (min 1 g)
  let bc := max 0 (min 1 b)
  let rScaled := rc * ((lut.size : ℚ) - 1)
  let gScaled := gc * ((lut.size : ℚ) - 1)
  let bScaled := bc * ((lut.size : ℚ) - 1)
  let r0 := ⌊rScaled⌋
  let g0 := ⌊gScaled⌋
  let b0 := ⌊bScaled⌋
  let r1 := min (r0 + 1) ((lut.size : ℤ) - 1)
  let g1 := min (g0 + 1) ((lut.size : ℤ) - 1)
  let b1 := min (b0 + 1) ((lut.size : ℤ) - 1)
  let rFrac := rScaled - (r0 : ℚ)
  let gFrac := gScaled - (g0 : ℚ)
  let bFrac := bScaled - (b0 : ℚ)
  (trilinearChannel lut r0 r1 g0 g1 b0 b1 rFrac gFrac bFrac 0,
   trilinearChannel lut r0 r1 g0 g1 b0 b1 rFrac gFrac bFrac 1,
   trilinearChannel lut r0 r1 g0 g1 b0 b1 rFrac gFrac bFrac 2)

/-- One written channel of `applyLUTToCanvas`:
`Math.round(Math.max(0, Math.min(1, src·(1-intensity) + graded·intensity)) * 255)`. -/
def blendChannel (intensity src graded : ℚ) : ℕ :=
  (jsRound (max 0 (min 1 (src * (1 - intensity) + graded * intensity)) * 255)).toNat

/-- The body of the per-pixel loop of `applyLUTToCanvas` for one RGBA
pixel: normalize the source bytes, look up the graded color by trilinear
interpolation, blend by intensity, clamp and round; alpha is not written. -/
def applyLUTPixel (lut : LUTData) (intensity : ℚ) (rByte gByte bByte : ℕ) : ℕ × ℕ × ℕ :=
  let r := (rByte : ℚ) / 255
  let g := (gByte : ℚ) / 255
  let b := (bByte : ℚ) / 255
  let graded := trilinearInterpolation lut r g b
  (blendChannel intensity r graded.1,
   blendChannel intensity g graded.2.1,
   blendChannel intensity b graded.2.2)

/-- The `for (let i = 0; i < data.length; i += 4)` loop of
`applyLUTToCanvas` over the flat RGBA byte array. -/
def applyLUTLoop (lut : LUTData) (intensity : ℚ) : List ℕ → List ℕ
  | rByte :: gByte :: bByte :: aByte :: rest =>
    let px := applyLUTPixel lut intensity rByte gByte bByte
    px.1 :: px.2.1 :: px.2.2 :: aByte :: applyLUTLoop lut intensity rest
  | rest => rest

/-- Embeds `applyLUTToCanvas` from `src/lib/filters/processor.ts`, restricted to
its pixel-data effect: clamp intensity to [0,1], return the data unchanged
when it is 0, otherwise run the per-pixel loop. -/
def applyLUTToData (lut : LUTData) (intensity : ℚ) (data : List ℕ) : List ℕ :=
  let clamped := max 0 (min 1 intensity)
  if clamped = 0 then data else applyLUTLoop lut clamped data

/-- One line of a `.cube` file, abstracted at the branch structure of
`CubeLoader.load`: the string-level tokenization (trim / startsWith /
split) is external, and each constructor carries exactly the numeric
payload the parser extracts. `sizeDecl none` models `parseInt` returning
`NaN`; a `dataLine` component of `none` models `parseFloat` returning
`NaN`. Header comments, domain lines, blank lines, junk lines and
digit-leading lines with fewer than 3 parts all leave the parse state
unchanged and are folded into `comment` / `domainMin` / `domainMax` /
`other`. -/
inductive CubeLine where
  | comment : CubeLine
  | sizeDecl : Option ℤ → CubeLine
  | domainMin : CubeLine
  | domainMax : CubeLine
  | dataLine : Option ℚ → Option ℚ → Option ℚ → CubeLine
  | other : CubeLine

/-- Value normalization of `CubeLoader.load`: values greater than 1 are
assumed 0–255 and divided by 255. -/
def normalizeCubeValue (v : ℚ) : ℚ := if 1 < v then v / 255 else v

/-- The line loop of `CubeLoader.load`: state is the current size
(default 32) and the accumulated data values; a `LUT_3D_SIZE` that parses
to `NaN` or is outside 2–256 raises; a data line with a `NaN` component is
skipped with a warning; everything else is accumulated or ignored. -/
def cubeParseLines : List CubeLine → ℕ → List ℚ → Except String (ℕ × List ℚ)
  | [], size, data => .ok (size, data)
  | .comment :: rest, size, data => cubeParseLines rest size data
  | .sizeDecl none :: _, _, _ => .error "Invalid LUT_3D_SIZE"
  | .sizeDecl (some parsedSize) :: rest, _size, data =>
    if parsedSize < 2 ∨ 256 < parsedSize then .error "Invalid LUT_3D_SIZE"
    else cubeParseLines rest parsedSize.toNat data
  | .domainMin :: rest, size, data => cubeParseLines rest size data
  | .domainMax :: rest, size, data => cubeParseLines rest size data
  | .dataLine (some r) (some g) (some b) :: rest, size, data =>
    cubeParseLines rest size
      (data ++ [normalizeCubeValue r, normalizeCubeValue g, normalizeCubeValue b])
  | .dataLine _ _ _ :: rest, size, data => cubeParseLines rest size data
  | .other :: rest, size, data => cubeParseLines rest size data

/-- Embeds `validateLUTData` from `src/lib/filters/formats/base.ts`: the table
length must be exactly `size³·3` and the size must be in 2–256 (the
power-of-two check only warns). -/
def validateLUTData (size dataLength : ℕ) : Except String Unit :=
  if dataLength ≠ size * size * size * 3 then .error "Invalid LUT data length"
  else if size < 2 ∨ 256 < size then .error "Invalid LUT size"
  else .ok ()

/-- Embeds `CubeLoader.load` from the `.cube` format loader: parse all lines from
the default size 32 and an empty table, then validate the final table
length against the declared size. -/
def cubeLoad (lines : List CubeLine) : Except String (ℕ × List ℚ) :=
  match cubeParseLines lines 32 [] with
  | .error e => .error e
  | .ok parsed =>
    match validateLUTData parsed.1 parsed.2.length with
    | .error e => .error e
    | .ok _ => .ok parsed

/-! ## Theorems -/

/-! ### Helper lemmas about the crop clamp -/

theorem MIN_CROP_SIZE_pos : (0 : ℚ) < MIN_CROP_SIZE := by norm_num [MIN_CROP_SIZE]

theorem MIN_CROP_SIZE_le_one : MIN_CROP_SIZE ≤ (1 : ℚ) := by norm_num [MIN_CROP_SIZE]

theorem scaleDown_pos (p : ℚ × ℚ) (h1 : 0 < p.1) (h2 : 0 < p.2) :
    0 < (clampLockedScaleDown p).1 ∧ 0 < (clampLockedScaleDown p).2 := by
  unfold clampLockedScaleDown
  split_ifs with hif
  · have hs : 0 < min (1 / p.1) (1 / p.2) := lt_min (by positivity) (by positivity)
    exact ⟨mul_pos h1 hs, mul_pos h2 hs⟩
  · exact ⟨h1, h2⟩

theorem scaleDown_le_one (p : ℚ × ℚ) (h1 : 0 < p.1) (h2 : 0 < p.2) :
    (clampLockedScaleDown p).1 ≤ 1 ∧ (clampLockedScaleDown p).2 ≤ 1 := by
  unfold clampLockedScaleDown
  split_ifs with hif
  · constructor
    · have h := mul_le_mul_of_nonneg_left (min_le_left (1 / p.1) (1 / p.2)) h1.le
      rwa [mul_one_div, div_self h1.ne'] at h
    · have h := mul_le_mul_of_nonneg_left (min_le_right (1 / p.1) (1 / p.2)) h2.le
      rwa [mul_one_div, div_self h2.ne'] at h
  · push_neg at hif
    exact hif

theorem scaleUp_pos (p : ℚ × ℚ) (h1 : 0 < p.1) (h2 : 0 < p.2) :
    0 < (clampLockedScaleUp p).1 ∧ 0 < (clampLockedScaleUp p).2 := by
  unfold clampLockedScaleUp
  split_ifs with hif
  · have hs : 0 < max (MIN_CROP_SIZE / p.1) (MIN_CROP_SIZE / p.2) :=
      lt_max_of_lt_left (div_pos MIN_CROP_SIZE_pos h1)
    exact ⟨mul_pos h1 hs, mul_pos h2 hs⟩
  · exact ⟨h1, h2⟩

theorem scaleUp_ge_min (p : ℚ × ℚ) (h1 : 0 < p.1) (h2 : 0 < p.2) :
    MIN_CROP_SIZE ≤ (clampLockedScaleUp p).1 ∧ MIN_CROP_SIZE ≤ (clampLockedScaleUp p).2 := by
  unfold clampLockedScaleUp
  split_ifs with hif
  · constructor
    · have h := mul_le_mul_of_nonneg_left
        (le_max_left (MIN_CROP_SIZE / p.1) (MIN_CROP_SIZE / p.2)) h1.le
      have hc : p.1 * (MIN_CROP_SIZE / p.1) = MIN_CROP_SIZE := by
        field_simp
      rwa [hc] at h
    · have h := mul_le_mul_of_nonneg_left
        (le_max_right (MIN_CROP_SIZE / p.1) (MIN_CROP_SIZE / p.2)) h2.le
      have hc : p.2 * (MIN_CROP_SIZE / p.2) = MIN_CROP_SIZE := by
        field_simp
      rwa [hc] at h
  · push_neg at hif
    exact hif

theorem clampLockedDims_pos (w h : ℚ) (hw : 0 < w) (hh : 0 < h) :
    0 < (clampLockedDims w h).1 ∧ 0 < (clampLockedDims w h).2 := by
  have hd := scaleDown_pos (w, h) hw hh
  exact scaleUp_pos _ hd.1 hd.2

theorem clampLockedDims_ge_min (w h : ℚ) (hw : 0 < w) (hh : 0 < h) :
    MIN_CROP_SIZE ≤ (clampLockedDims w h).1 ∧ MIN_CROP_SIZE ≤ (clampLockedDims w h).2 := by
  have hd := scaleDown_pos (w, h) hw hh
  exact scaleUp_ge_min _ hd.1 hd.2

theorem pos_clamp_le (b x : ℚ) (hb : 0 ≤ b) : max 0 (min b x) ≤ b :=
  max_le hb (min_le_left _ _)

theorem pos_clamp_idem (b x : ℚ) :
    max 0 (min b (max 0 (min b x))) = max 0 (min b x) := by
  rcases le_or_lt 0 b with hb | hb
  · have h1 : max 0 (min b x) ≤ b := max_le hb (min_le_left _ _)
    rw [min_eq_right h1, ← max_assoc, max_self]
  · have h0 : max 0 (min b x) = 0 :=
      max_eq_left ((min_le_left b x).trans hb.le)
    rw [h0, min_eq_left hb.le, max_eq_left hb.le]

theorem free_dim_clamp_le_one (t : ℚ) : max MIN_CROP_SIZE (min 1 t) ≤ 1 :=
  max_le MIN_CROP_SIZE_le_one (min_le_left _ _)

theorem free_dim_clamp_idem (t : ℚ) :
    max MIN_CROP_SIZE (min 1 (max MIN_CROP_SIZE (min 1 t))) =
      max MIN_CROP_SIZE (min 1 t) := by
  rw [min_eq_right (free_dim_clamp_le_one t),
    max_eq_right (le_max_left MIN_CROP_SIZE (min 1 t))]

theorem min_one_div_eq (a b : ℚ) (ha : 0 < a) (hb : 0 < b) :
    min (1 / a) (1 / b) = 1 / max a b := by
  rcases le_total a b with hab | hab
  · rw [max_eq_right hab, min_eq_right (one_div_le_one_div_of_le ha hab)]
  · rw [max_eq_left hab, min_eq_left (one_div_le_one_div_of_le hb hab)]

theorem max_div_eq (c a b : ℚ) (hc : 0 < c) (ha : 0 < a) (hb : 0 < b) :
    max (c / a) (c / b) = c / min a b := by
  rcases le_total a b with hab | hab
  · rw [min_eq_left hab, max_eq_left ((div_le_div_iff_of_pos_left hc hb ha).mpr hab)]
  · rw [min_eq_right hab, max_eq_right ((div_le_div_iff_of_pos_left hc ha hb).mpr hab)]

theorem scaleDown_scalar (p : ℚ × ℚ) :
    ∃ k : ℚ, clampLockedScaleDown p = (p.1 * k, p.2 * k) := by
  unfold clampLockedScaleDown
  split_ifs with hif
  · exact ⟨min (1 / p.1) (1 / p.2), rfl⟩
  · exact ⟨1, by simp⟩

theorem scaleUp_scalar (p : ℚ × ℚ) :
    ∃ k : ℚ, clampLockedScaleUp p = (p.1 * k, p.2 * k) := by
  unfold clampLockedScaleUp
  split_ifs with hif
  · exact ⟨max (MIN_CROP_SIZE / p.1) (MIN_CROP_SIZE / p.2), rfl⟩
  · exact ⟨1, by simp⟩

theorem clampLockedDims_scalar (w h : ℚ) :
    ∃ k : ℚ, clampLockedDims w h = (w * k, h * k) := by
  obtain ⟨k1, e1⟩ := scaleDown_scalar (w, h)
  obtain ⟨k2, e2⟩ := scaleUp_scalar (clampLockedScaleDown (w, h))
  refine ⟨k1 * k2, ?_⟩
  unfold clampLockedDims
  rw [e2, e1]
  simp only [Prod.mk.injEq]
  constructor <;> ring

theorem clampLockedDims_idem (w h : ℚ) (hw : 0 < w) (hh : 0 < h) :
    clampLockedDims (clampLockedDims w h).1 (clampLockedDims w h).2 =
      clampLockedDims w h := by
  have hqpos := scaleDown_pos (w, h) hw hh
  have hqle := scaleDown_le_one (w, h) hw hh
  set q := clampLockedScaleDown (w, h) with hqdef
  have hdims : clampLockedDims w h = clampLockedScaleUp q := rfl
  by_cases htrig : q.1 < MIN_CROP_SIZE ∨ q.2 < MIN_CROP_SIZE
  · -- scale-up step of the first pass fires; afterwards min = MIN_CROP_SIZE
    have ht : clampLockedScaleUp q =
        (q.1 * (MIN_CROP_SIZE / min q.1 q.2), q.2 * (MIN_CROP_SIZE / min q.1 q.2)) := by
      unfold clampLockedScaleUp
      rw [if_pos htrig, max_div_eq MIN_CROP_SIZE q.1 q.2 MIN_CROP_SIZE_pos hqpos.1 hqpos.2]
    set r := clampLockedScaleUp q with hrdef
    have hminq : 0 < min q.1 q.2 := lt_min hqpos.1 hqpos.2
    have htpos : 0 < MIN_CROP_SIZE / min q.1 q.2 := div_pos MIN_CROP_SIZE_pos hminq
    have hrpos : 0 < r.1 ∧ 0 < r.2 := by
      rw [ht]
      exact ⟨mul_pos hqpos.1 htpos, mul_pos hqpos.2 htpos⟩
    have hminr : min r.1 r.2 = MIN_CROP_SIZE := by
      rw [ht]
      show min (q.1 * _) (q.2 * _) = _
      rw [← min_mul_of_nonneg _ _ htpos.le]
      field_simp
    have hge : MIN_CROP_SIZE ≤ r.1 ∧ MIN_CROP_SIZE ≤ r.2 :=
      ⟨hminr ▸ min_le_left r.1 r.2, hminr ▸ min_le_right r.1 r.2⟩
    rw [hdims]
    by_cases hbig : 1 < r.1 ∨ 1 < r.2
    · -- second pass: scale down by 1/max, which pushes min below MIN_CROP_SIZE,
      -- so scale-up by exactly max restores the pair
      have hMpos : 0 < max r.1 r.2 := lt_max_of_lt_left hrpos.1
      have hM1 : 1 < max r.1 r.2 := by
        rcases hbig with hb | hb
        · exact lt_max_of_lt_left hb
        · exact lt_max_of_lt_right hb
      have hsd : clampLockedScaleDown (r.1, r.2) =
          (r.1 * (1 / max r.1 r.2), r.2 * (1 / max r.1 r.2)) := by
        unfold clampLockedScaleDown
        rw [if_pos hbig, min_one_div_eq r.1 r.2 hrpos.1 hrpos.2]
      have hspos : 0 < 1 / max r.1 r.2 := by positivity
      have hmin2 : min (r.1 * (1 / max r.1 r.2)) (r.2 * (1 / max r.1 r.2)) =
          MIN_CROP_SIZE * (1 / max r.1 r.2) := by
        rw [← min_mul_of_nonneg _ _ hspos.le, hminr]
      have hlt2 : MIN_CROP_SIZE * (1 / max r.1 r.2) < MIN_CROP_SIZE := by
        apply mul_lt_of_lt_one_right MIN_CROP_SIZE_pos
        rw [div_lt_one hMpos]
        exact hM1
      unfold clampLockedDims
      rw [hsd]
      have htrig2 : r.1 * (1 / max r.1 r.2) < MIN_CROP_SIZE ∨
          r.2 * (1 / max r.1 r.2) < MIN_CROP_SIZE := by
        rw [← min_lt_iff, hmin2]
        exact hlt2
      unfold clampLockedScaleUp
      rw [if_pos htrig2]
      have hp1 : 0 < r.1 * (1 / max r.1 r.2) := mul_pos hrpos.1 hspos
      have hp2 : 0 < r.2 * (1 / max r.1 r.2) := mul_pos hrpos.2 hspos
      rw [max_div_eq MIN_CROP_SIZE _ _ MIN_CROP_SIZE_pos hp1 hp2, hmin2]
      have hscale : MIN_CROP_SIZE / (MIN_CROP_SIZE * (1 / max r.1 r.2)) = max r.1 r.2 := by
        rw [mul_one_div, div_div_eq_mul_div, mul_div_cancel_left₀ _ MIN_CROP_SIZE_pos.ne']
      rw [hscale]
      have e1 : r.1 * (1 / max r.1 r.2) * max r.1 r.2 = r.1 := by
        field_simp
      have e2 : r.2 * (1 / max r.1 r.2) * max r.1 r.2 = r.2 := by
        field_simp
      show (r.1 * (1 / max r.1 r.2) * max r.1 r.2,
        r.2 * (1 / max r.1 r.2) * max r.1 r.2) = r
      rw [e1, e2]
    · -- second pass: nothing fires
      push_neg at hbig
      unfold clampLockedDims
      have hsd : clampLockedScaleDown (r.1, r.2) = (r.1, r.2) := by
        unfold clampLockedScaleDown
        rw [if_neg]
        push_neg
        exact hbig
      rw [hsd]
      unfold clampLockedScaleUp
      rw [if_neg]
      push_neg
      exact hge
  · -- scale-up step of the first pass does not fire: dims already in range
    push_neg at htrig
    have hr : clampLockedScaleUp q = q := by
      unfold clampLockedScaleUp
      rw [if_neg]
      push_neg
      exact htrig
    rw [hdims, hr]
    unfold clampLockedDims
    have hsd : clampLockedScaleDown (q.1, q.2) = (q.1, q.2) := by
      unfold clampLockedScaleDown
      rw [if_neg]
      push_neg
      exact hqle
    rw [hsd]
    have hsu : clampLockedScaleUp (q.1, q.2) = (q.1, q.2) := by
      unfold clampLockedScaleUp
      rw [if_neg]
      push_neg
      exact htrig
    rw [hsu]

theorem clampCropToBounds_locked_fields (c : CropState)
    (hlock : c.aspectLock = true ∧ aspectTruthy c.lockedAspect) :
    clampCropToBounds c =
      { c with
        x := max 0 (min (1 - (clampLockedDims c.width c.height).1) c.x)
        y := max 0 (min (1 - (clampLockedDims c.width c.height).2) c.y)
        width := (clampLockedDims c.width c.height).1
        height := (clampLockedDims c.width c.height).2 } := by
  simp only [clampCropToBounds, if_pos hlock]

theorem clampCropToBounds_unlocked_fields (c : CropState)
    (hlock : ¬(c.aspectLock = true ∧ aspectTruthy c.lockedAspect)) :
    clampCropToBounds c =
      { c with
        x := max 0 (min (1 - max MIN_CROP_SIZE (min 1 c.width)) c.x)
        y := max 0 (min (1 - max MIN_CROP_SIZE (min 1 c.height)) c.y)
        width := max MIN_CROP_SIZE (min 1 c.width)
        height := max MIN_CROP_SIZE (min 1 c.height) } := by
  simp only [clampCropToBounds, if_neg hlock]

theorem clampCropToBounds_locked_invariants (c : CropState)
    (hlock : c.aspectLock = true ∧ aspectTruthy c.lockedAspect)
    (hw : 0 < c.width) (hh : 0 < c.height) :
    0 ≤ (clampCropToBounds c).x ∧ 0 ≤ (clampCropToBounds c).y ∧
    MIN_CROP_SIZE ≤ (clampCropToBounds c).width ∧
    MIN_CROP_SIZE ≤ (clampCropToBounds c).height := by
  rw [clampCropToBounds_locked_fields c hlock]
  exact ⟨le_max_left _ _, le_max_left _ _,
    (clampLockedDims_ge_min c.width c.height hw hh).1,
    (clampLockedDims_ge_min c.width c.height hw hh).2⟩

theorem clampCropToBounds_unlocked_invariants (c : CropState)
    (hlock : ¬(c.aspectLock = true ∧ aspectTruthy c.lockedAspect)) :
    0 ≤ (clampCropToBounds c).x ∧ 0 ≤ (clampCropToBounds c).y ∧
    MIN_CROP_SIZE ≤ (clampCropToBounds c).width ∧
    MIN_CROP_SIZE ≤ (clampCropToBounds c).height ∧
    (clampCropToBounds c).x + (clampCropToBounds c).width ≤ 1 ∧
    (clampCropToBounds c).y + (clampCropToBounds c).height ≤ 1 := by
  rw [clampCropToBounds_unlocked_fields c hlock]
  have hwle := free_dim_clamp_le_one c.width
  have hhle := free_dim_clamp_le_one c.height
  have hx := pos_clamp_le (1 - max MIN_CROP_SIZE (min 1 c.width)) c.x (by linarith)
  have hy := pos_clamp_le (1 - max MIN_CROP_SIZE (min 1 c.height)) c.y (by linarith)
  refine ⟨le_max_left _ _, le_max_left _ _, le_max_left _ _, le_max_left _ _, ?_, ?_⟩
  · show max 0 (min (1 - max MIN_CROP_SIZE (min 1 c.width)) c.x) +
      max MIN_CROP_SIZE (min 1 c.width) ≤ 1
    linarith
  · show max 0 (min (1 - max MIN_CROP_SIZE (min 1 c.height)) c.y) +
      max MIN_CROP_SIZE (min 1 c.height) ≤ 1
    linarith

theorem resizeCropFree_eq_clamp (c : CropState) (handle : Handle) (delta : ℚ × ℚ) :
    ∃ nx ny nw nh : ℚ, resizeCropFree c handle delta =
      clampCropToBounds { c with x := nx, y := ny, width := nw, height := nh } :=
  ⟨_, _, _, _, rfl⟩

theorem resizeCropAspectLocked_eq_clamp (c : CropState) (handle : Handle)
    (delta : ℚ × ℚ) (aspect : ℚ) :
    ∃ nx ny nw nh : ℚ, resizeCropAspectLocked c handle delta aspect =
      clampCropToBounds
        { c with x := nx, y := ny, width := max (5 / 100) nw, height := max (5 / 100) nh } :=
  ⟨_, _, _, _, rfl⟩

/-! ### Helper lemmas about the LUT pixel loop -/

theorem jsRound_natCast (v : ℕ) : jsRound (v : ℚ) = v := by
  unfold jsRound
  rw [Int.floor_eq_iff]
  constructor <;> push_cast <;> linarith

theorem blendChannel_le (intensity src graded : ℚ) :
    blendChannel intensity src graded ≤ 255 := by
  unfold blendChannel jsRound
  rw [Int.toNat_le]
  have hle : max 0 (min 1 (src * (1 - intensity) + graded * intensity)) ≤ 1 :=
    max_le (by norm_num) (min_le_left _ _)
  have h255 : max 0 (min 1 (src * (1 - intensity) + graded * intensity)) * 255 ≤ 255 := by
    nlinarith [hle]
  have := Int.floor_lt.mpr
    (show max 0 (min 1 (src * (1 - intensity) + graded * intensity)) * 255 + 1 / 2 <
      ((256 : ℤ) : ℚ) by push_cast; linarith)
  omega

theorem applyLUTLoop_cons (lut : LUTData) (i : ℚ) (r g b a : ℕ) (rest : List ℕ) :
    applyLUTLoop lut i (r :: g :: b :: a :: rest) =
      (applyLUTPixel lut i r g b).1 :: (applyLUTPixel lut i r g b).2.1 ::
        (applyLUTPixel lut i r g b).2.2 :: a :: applyLUTLoop lut i rest := rfl

theorem applyLUTLoop_length (lut : LUTData) (i : ℚ) :
    ∀ data : List ℕ, (applyLUTLoop lut i data).length = data.length
  | r :: g :: b :: a :: rest => by
    rw [applyLUTLoop_cons]
    simp [applyLUTLoop_length lut i rest]
  | [] => rfl
  | [_] => rfl
  | [_, _] => rfl
  | [_, _, _] => rfl

theorem exists_four_cons (data : List ℕ) (h : 3 < data.length) :
    ∃ r g b a rest, data = r :: g :: b :: a :: rest := by
  match data with
  | r :: g :: b :: a :: rest => exact ⟨r, g, b, a, rest, rfl⟩
  | [] | [_] | [_, _] | [_, _, _] => simp at h

theorem getD_cons_add_four (x1 x2 x3 x4 : ℕ) (t : List ℕ) (j : ℕ) :
    (x1 :: x2 :: x3 :: x4 :: t).getD (j + 4) 0 = t.getD j 0 := by
  rw [show j + 4 = j + 3 + 1 from rfl, List.getD_cons_succ,
    show j + 3 = j + 2 + 1 from rfl, List.getD_cons_succ,
    show j + 2 = j + 1 + 1 from rfl, List.getD_cons_succ, List.getD_cons_succ]

theorem applyLUTLoop_getD (lut : LUTData) (i : ℚ) :
    ∀ (k : ℕ) (data : List ℕ), 4 * k + 3 < data.length →
      (applyLUTLoop lut i data).getD (4 * k + 3) 0 = data.getD (4 * k + 3) 0 ∧
      (applyLUTLoop lut i data).getD (4 * k) 0 =
        (applyLUTPixel lut i (data.getD (4 * k) 0) (data.getD (4 * k + 1) 0)
          (data.getD (4 * k + 2) 0)).1 ∧
      (applyLUTLoop lut i data).getD (4 * k + 1) 0 =
        (applyLUTPixel lut i (data.getD (4 * k) 0) (data.getD (4 * k + 1) 0)
          (data.getD (4 * k + 2) 0)).2.1 ∧
      (applyLUTLoop lut i data).getD (4 * k + 2) 0 =
        (applyLUTPixel lut i (data.getD (4 * k) 0) (data.getD (4 * k + 1) 0)
          (data.getD (4 * k + 2) 0)).2.2 := by
  intro k
  induction k with
  | zero =>
    intro data hk
    obtain ⟨r, g, b, a, rest, rfl⟩ := exists_four_cons data (by omega)
    rw [applyLUTLoop_cons]
    exact ⟨rfl, rfl, rfl, rfl⟩
  | succ k ih =>
    intro data hk
    obtain ⟨r, g, b, a, rest, rfl⟩ := exists_four_cons data (by omega)
    have hk' : 4 * k + 3 < rest.length := by
      simp at hk
      omega
    have e3 : 4 * (k + 1) + 3 = 4 * k + 3 + 4 := by ring
    have e0 : 4 * (k + 1) = 4 * k + 4 := by ring
    have e1 : 4 * (k + 1) + 1 = 4 * k + 1 + 4 := by ring
    have e2 : 4 * (k + 1) + 2 = 4 * k + 2 + 4 := by ring
    rw [applyLUTLoop_cons, e3, e1, e2, e0]
    simp only [getD_cons_add_four]
    exact ih rest hk'

theorem blendChannel_zero (v : ℕ) (hv : v ≤ 255) (graded : ℚ) :
    blendChannel 0 ((v : ℚ) / 255) graded = v := by
  unfold blendChannel
  have hle1 : ((v : ℚ) / 255) ≤ 1 := by
    rw [div_le_one (by norm_num)]
    exact_mod_cast hv
  have hge0 : (0 : ℚ) ≤ (v : ℚ) / 255 := by positivity
  have e : (v : ℚ) / 255 * (1 - 0) + graded * 0 = (v : ℚ) / 255 := by ring
  rw [e, min_eq_right hle1, max_eq_right hge0,
    div_mul_cancel₀ _ (by norm_num : (255 : ℚ) ≠ 0), jsRound_natCast, Int.toNat_natCast]

/-- Claim C1: for every snapshot with an image, export renders at target
width equal to the effective (cropped) image width, target height equal to
`targetWidth / resolvedRatio`, and the transform passed to the shared
renderer is the preview transform with `x`, `y` and `scale` each
multiplied by the uniform factor `scaleFactor = targetWidth / previewWidth`. -/
theorem export_uses_effective_width_and_uniform_scale
    (image : ImageMetadata) (t : TransformState) (crop : Option CropState)
    (canvasWidth canvasHeight : ℚ) (bg : String) (ratioId : RatioOptionId)
    (customRatioDims : ℚ × ℚ) :
    exportComposite
        (createImageSnapshot image t crop canvasWidth canvasHeight bg ratioId customRatioDims) =
      Except.ok
        { width := (getEffectiveDimensions image crop).1
          height := (getEffectiveDimensions image crop).1 /
            findRatioValue ratioId
              { custom := customRatioDims, image := some image, crop := crop }
          background := bg
          transform :=
            { x := t.x * ((getEffectiveDimensions image crop).1 / canvasWidth)
              y := t.y * ((getEffectiveDimensions image crop).1 / canvasWidth)
              scale := t.scale * ((getEffectiveDimensions image crop).1 / canvasWidth) }
          crop := crop
          image := image } := rfl

/-- Claim C2: for every image, surface size and optional crop (all
non-degenerate), `fitScale = min(surfaceW/effW, surfaceH/effH)` over the
crop-aware effective dimensions, `defaultScale = max(fitScale·0.95,
SCALE_MIN)`, and the initial transform is
`{x: -centerOffset.x·scale, y: -centerOffset.y·scale, scale: defaultScale}`. -/
theorem fit_and_initial_transform_formulas
    (image : ImageMetadata) (canvasWidth canvasHeight : ℚ) (crop : Option CropState)
    (hcw : 0 < canvasWidth) (hch : 0 < canvasHeight)
    (hw : 0 < (getEffectiveDimensions image crop).1)
    (hh : 0 < (getEffectiveDimensions image crop).2) :
    computeFitScale image canvasWidth canvasHeight crop =
      min (canvasWidth / (getEffectiveDimensions image crop).1)
        (canvasHeight / (getEffectiveDimensions image crop).2) ∧
    computeDefaultScale image canvasWidth canvasHeight crop =
      max (computeFitScale image canvasWidth canvasHeight crop * (95 / 100)) SCALE_MIN ∧
    computeInitialTransform image canvasWidth canvasHeight crop =
      { x := -(getCropCenterOffset image crop).1 *
          computeDefaultScale image canvasWidth canvasHeight crop
        y := -(getCropCenterOffset image crop).2 *
          computeDefaultScale image canvasWidth canvasHeight crop
        scale := computeDefaultScale image canvasWidth canvasHeight crop } := by
  refine ⟨?_, rfl, rfl⟩
  simp only [computeFitScale]
  rw [if_neg]
  push_neg
  exact ⟨hcw, hch, hw, hh⟩

/-- Witness for C2 at a 4000×3000 image in a 1000×1000 surface, no crop. -/
theorem fit_and_initial_transform_formulas_witness :
    computeFitScale ⟨4000, 3000⟩ 1000 1000 none =
      min ((1000 : ℚ) / (getEffectiveDimensions ⟨4000, 3000⟩ none).1)
        ((1000 : ℚ) / (getEffectiveDimensions ⟨4000, 3000⟩ none).2) ∧
    computeDefaultScale ⟨4000, 3000⟩ 1000 1000 none =
      max (computeFitScale ⟨4000, 3000⟩ 1000 1000 none * (95 / 100)) SCALE_MIN ∧
    computeInitialTransform ⟨4000, 3000⟩ 1000 1000 none =
      { x := -(getCropCenterOffset ⟨4000, 3000⟩ none).1 *
          computeDefaultScale ⟨4000, 3000⟩ 1000 1000 none
        y := -(getCropCenterOffset ⟨4000, 3000⟩ none).2 *
          computeDefaultScale ⟨4000, 3000⟩ 1000 1000 none
        scale := computeDefaultScale ⟨4000, 3000⟩ 1000 1000 none } :=
  fit_and_initial_transform_formulas ⟨4000, 3000⟩ 1000 1000 none
    (by norm_num) (by norm_num) (by decide) (by decide)

/-- Claim C3 is false on the code: importing a 4000×3000 image into a
1000×1000 surface gives `fitScale = 1/4`, but `resetTransform` goes
through `fitCurrentImageToPreview` → `computeInitialTransform`, which uses
`computeDefaultScale` (the 0.95 inset), so reset yields scale 19/80 =
0.2375, not 1/4 exactly. -/
theorem reset_scenario_counterexample :
    computeFitScale ⟨4000, 3000⟩ 1000 1000 none = 1 / 4 ∧
    resetTransform ⟨4000, 3000⟩ (1000, 1000) ≠ { x := 0, y := 0, scale := 1 / 4 } := by
  constructor
  · simp only [computeFitScale, getEffectiveDimensions]
    norm_num [min_def]
  · simp only [resetTransform, fitCurrentImageToPreview, computeInitialTransform,
      computeDefaultScale, computeFitScale, getCropCenterOffset, getEffectiveDimensions,
      SCALE_MIN, SCALE_DEFAULT_MULTIPLIER]
    norm_num [min_def, max_def, TransformState.mk.injEq]

/-- Claim C3 amended: the fit scale of the scenario is 1/4, and `reset`
produces exactly `{x: 0, y: 0, scale: defaultScale}` where
`defaultScale = max(fitScale·0.95, SCALE_MIN) = 19/80`. -/
theorem reset_scenario_amended :
    computeFitScale ⟨4000, 3000⟩ 1000 1000 none = 1 / 4 ∧
    resetTransform ⟨4000, 3000⟩ (1000, 1000) =
      { x := 0, y := 0, scale := computeDefaultScale ⟨4000, 3000⟩ 1000 1000 none } ∧
    computeDefaultScale ⟨4000, 3000⟩ 1000 1000 none = 19 / 80 := by
  refine ⟨?_, ?_, ?_⟩ <;>
    simp only [resetTransform, fitCurrentImageToPreview, computeInitialTransform,
      computeDefaultScale, computeFitScale, getCropCenterOffset, getEffectiveDimensions,
      SCALE_MIN, SCALE_DEFAULT_MULTIPLIER] <;>
    norm_num [min_def, max_def, TransformState.mk.injEq]

/-- Claim C4 is false on the code: starting from the valid crop
`{x: 0, y: 0, width: 0.1, height: 0.9}` locked to pixel aspect 9/16 on an
image of aspect 22.5 (normalized aspect 1/40), dragging the `e` handle by
`dx = -0.05` produces a crop of height 2: the aspect-locked clamp scales
the dimensions uniformly up to restore the minimum width and thereby
pushes the height above 1, so `y + height ≤ 1` fails. -/
theorem crop_invariants_counterexample :
    resizeCropFromHandle ⟨0, 0, 1 / 10, 9 / 10, true, some (9 / 16)⟩ .east
        (-(1 / 20), 0) (45 / 2) =
      ⟨0, 0, 1 / 20, 2, true, some (9 / 16)⟩ ∧
    ¬((resizeCropFromHandle ⟨0, 0, 1 / 10, 9 / 10, true, some (9 / 16)⟩ .east
          (-(1 / 20), 0) (45 / 2)).y +
        (resizeCropFromHandle ⟨0, 0, 1 / 10, 9 / 10, true, some (9 / 16)⟩ .east
          (-(1 / 20), 0) (45 / 2)).height ≤ 1) := by
  constructor <;>
    simp only [resizeCropFromHandle, resizeCropAspectLocked, clampCropToBounds,
      clampLockedDims, clampLockedScaleUp, clampLockedScaleDown, aspectTruthy,
      MIN_CROP_SIZE, Option.getD_some] <;>
    norm_num [min_def, max_def, CropState.mk.injEq]

/-- Claim C4 amended: after `moveCrop` or `resizeCropFromHandle` (on a crop
with positive dimensions), the result always satisfies `x ≥ 0`, `y ≥ 0`
and `width, height ≥ MIN_CROP_SIZE`, because bounds clamping is the last
step of each operation; the containment invariants `x + width ≤ 1` and
`y + height ≤ 1` additionally hold whenever the crop is not
aspect-locked (they can fail for aspect-locked crops with an extreme
normalized aspect). -/
theorem crop_move_resize_invariants (c : CropState) (handle : Handle)
    (delta : ℚ × ℚ) (imageAspect : ℚ) (hw : 0 < c.width) (hh : 0 < c.height) :
    (0 ≤ (moveCrop c delta).x ∧ 0 ≤ (moveCrop c delta).y ∧
      MIN_CROP_SIZE ≤ (moveCrop c delta).width ∧
      MIN_CROP_SIZE ≤ (moveCrop c delta).height) ∧
    (0 ≤ (resizeCropFromHandle c handle delta imageAspect).x ∧
      0 ≤ (resizeCropFromHandle c handle delta imageAspect).y ∧
      MIN_CROP_SIZE ≤ (resizeCropFromHandle c handle delta imageAspect).width ∧
      MIN_CROP_SIZE ≤ (resizeCropFromHandle c handle delta imageAspect).height) ∧
    (¬(c.aspectLock = true ∧ aspectTruthy c.lockedAspect) →
      (moveCrop c delta).x + (moveCrop c delta).width ≤ 1 ∧
      (moveCrop c delta).y + (moveCrop c delta).height ≤ 1 ∧
      (resizeCropFromHandle c handle delta imageAspect).x +
        (resizeCropFromHandle c handle delta imageAspect).width ≤ 1 ∧
      (resizeCropFromHandle c handle delta imageAspect).y +
        (resizeCropFromHandle c handle delta imageAspect).height ≤ 1) := by
  obtain ⟨cx, cy, cw, ch, al, la⟩ := c
  simp only at hw hh
  by_cases hlock : al = true ∧ aspectTruthy la
  · -- aspect-locked crop
    have hmove := clampCropToBounds_locked_invariants
      ⟨cx + delta.1, cy + delta.2, cw, ch, al, la⟩ hlock hw hh
    have hresize : resizeCropFromHandle ⟨cx, cy, cw, ch, al, la⟩ handle delta imageAspect =
        resizeCropAspectLocked ⟨cx, cy, cw, ch, al, la⟩ handle delta
          ((la.getD 0) / imageAspect) := by
      unfold resizeCropFromHandle
      rw [if_pos hlock]
    obtain ⟨nx, ny, nw, nh, he⟩ := resizeCropAspectLocked_eq_clamp
      ⟨cx, cy, cw, ch, al, la⟩ handle delta ((la.getD 0) / imageAspect)
    have hminpos : (0 : ℚ) < 5 / 100 := by norm_num
    have hres := clampCropToBounds_locked_invariants
      ⟨nx, ny, max (5 / 100) nw, max (5 / 100) nh, al, la⟩ hlock
      (lt_of_lt_of_le hminpos (le_max_left _ _))
      (lt_of_lt_of_le hminpos (le_max_left _ _))
    refine ⟨hmove, ?_, fun hfree => absurd hlock hfree⟩
    rw [hresize, he]
    exact hres
  · -- free crop
    have hmove := clampCropToBounds_unlocked_invariants
      ⟨cx + delta.1, cy + delta.2, cw, ch, al, la⟩ hlock
    have hresize : resizeCropFromHandle ⟨cx, cy, cw, ch, al, la⟩ handle delta imageAspect =
        resizeCropFree ⟨cx, cy, cw, ch, al, la⟩ handle delta := by
      unfold resizeCropFromHandle
      rw [if_neg hlock]
    obtain ⟨nx, ny, nw, nh, he⟩ := resizeCropFree_eq_clamp
      ⟨cx, cy, cw, ch, al, la⟩ handle delta
    have hres := clampCropToBounds_unlocked_invariants ⟨nx, ny, nw, nh, al, la⟩ hlock
    rw [hresize, he]
    exact ⟨⟨hmove.1, hmove.2.1, hmove.2.2.1, hmove.2.2.2.1⟩,
      ⟨hres.1, hres.2.1, hres.2.2.1, hres.2.2.2.1⟩,
      fun _ => ⟨hmove.2.2.2.2.1, hmove.2.2.2.2.2, hres.2.2.2.2.1, hres.2.2.2.2.2⟩⟩

/-- Witness for the amended C4 at a concrete free crop and `se` drag. -/
theorem crop_move_resize_invariants_witness :
    (0 ≤ (moveCrop ⟨0, 0, 1 / 2, 1 / 2, false, none⟩ (1 / 4, 1 / 4)).x ∧
      0 ≤ (moveCrop ⟨0, 0, 1 / 2, 1 / 2, false, none⟩ (1 / 4, 1 / 4)).y ∧
      MIN_CROP_SIZE ≤ (moveCrop ⟨0, 0, 1 / 2, 1 / 2, false, none⟩ (1 / 4, 1 / 4)).width ∧
      MIN_CROP_SIZE ≤ (moveCrop ⟨0, 0, 1 / 2, 1 / 2, false, none⟩ (1 / 4, 1 / 4)).height) ∧
    (0 ≤ (resizeCropFromHandle ⟨0, 0, 1 / 2, 1 / 2, false, none⟩ .se (1 / 4, 1 / 4) 1).x ∧
      0 ≤ (resizeCropFromHandle ⟨0, 0, 1 / 2, 1 / 2, false, none⟩ .se (1 / 4, 1 / 4) 1).y ∧
      MIN_CROP_SIZE ≤
        (resizeCropFromHandle ⟨0, 0, 1 / 2, 1 / 2, false, none⟩ .se (1 / 4, 1 / 4) 1).width ∧
      MIN_CROP_SIZE ≤
        (resizeCropFromHandle ⟨0, 0, 1 / 2, 1 / 2, false, none⟩ .se (1 / 4, 1 / 4) 1).height) ∧
    (¬((⟨0, 0, 1 / 2, 1 / 2, false, none⟩ : CropState).aspectLock = true ∧
        aspectTruthy (⟨0, 0, 1 / 2, 1 / 2, false, none⟩ : CropState).lockedAspect) →
      (moveCrop ⟨0, 0, 1 / 2, 1 / 2, false, none⟩ (1 / 4, 1 / 4)).x +
        (moveCrop ⟨0, 0, 1 / 2, 1 / 2, false, none⟩ (1 / 4, 1 / 4)).width ≤ 1 ∧
      (moveCrop ⟨0, 0, 1 / 2, 1 / 2, false, none⟩ (1 / 4, 1 / 4)).y +
        (moveCrop ⟨0, 0, 1 / 2, 1 / 2, false, none⟩ (1 / 4, 1 / 4)).height ≤ 1 ∧
      (resizeCropFromHandle ⟨0, 0, 1 / 2, 1 / 2, false, none⟩ .se (1 / 4, 1 / 4) 1).x +
        (resizeCropFromHandle ⟨0, 0, 1 / 2, 1 / 2, false, none⟩ .se (1 / 4, 1 / 4) 1).width ≤ 1 ∧
      (resizeCropFromHandle ⟨0, 0, 1 / 2, 1 / 2, false, none⟩ .se (1 / 4, 1 / 4) 1).y +
        (resizeCropFromHandle ⟨0, 0, 1 / 2, 1 / 2, false, none⟩ .se (1 / 4, 1 / 4) 1).height ≤ 1) :=
  crop_move_resize_invariants ⟨0, 0, 1 / 2, 1 / 2, false, none⟩ .se (1 / 4, 1 / 4) 1
    (by norm_num) (by norm_num)

/-- Claim C5: the crop bounds clamp is idempotent (for crops with positive
dimensions), the aspect-locked branch scales width and height uniformly —
preserving their ratio exactly — and the unlocked branch clamps the two
axes independently into `[MIN_CROP_SIZE, 1]` and then clamps the position
to `x ∈ [0, 1-width]`, `y ∈ [0, 1-height]`. -/
theorem clamp_idempotent_and_structure (c : CropState)
    (hw : 0 < c.width) (hh : 0 < c.height) :
    clampCropToBounds (clampCropToBounds c) = clampCropToBounds c ∧
    (c.aspectLock = true ∧ aspectTruthy c.lockedAspect →
      (clampCropToBounds c).width * c.height = (clampCropToBounds c).height * c.width) ∧
    (¬(c.aspectLock = true ∧ aspectTruthy c.lockedAspect) →
      clampCropToBounds c =
        { c with
          x := max 0 (min (1 - max MIN_CROP_SIZE (min 1 c.width)) c.x)
          y := max 0 (min (1 - max MIN_CROP_SIZE (min 1 c.height)) c.y)
          width := max MIN_CROP_SIZE (min 1 c.width)
          height := max MIN_CROP_SIZE (min 1 c.height) }) := by
  obtain ⟨cx, cy, cw, ch, al, la⟩ := c
  simp only at hw hh
  refine ⟨?_, ?_, clampCropToBounds_unlocked_fields _⟩
  · by_cases hlock : al = true ∧ aspectTruthy la
    · rw [clampCropToBounds_locked_fields _ hlock,
        clampCropToBounds_locked_fields _ hlock]
      simp only [CropState.mk.injEq]
      rw [clampLockedDims_idem cw ch hw hh]
      exact ⟨pos_clamp_idem _ _, pos_clamp_idem _ _, rfl, rfl, trivial, trivial⟩
    · rw [clampCropToBounds_unlocked_fields _ hlock,
        clampCropToBounds_unlocked_fields _ hlock]
      simp only [CropState.mk.injEq]
      rw [free_dim_clamp_idem cw, free_dim_clamp_idem ch]
      exact ⟨pos_clamp_idem _ _, pos_clamp_idem _ _, rfl, rfl, trivial, trivial⟩
  · intro hlock
    rw [clampCropToBounds_locked_fields _ hlock]
    obtain ⟨k, hk⟩ := clampLockedDims_scalar cw ch
    show (clampLockedDims cw ch).1 * ch = (clampLockedDims cw ch).2 * cw
    rw [hk]
    ring

/-- Witness for C5 at a concrete aspect-locked, out-of-bounds crop. -/
theorem clamp_idempotent_and_structure_witness :
    clampCropToBounds (clampCropToBounds ⟨1 / 2, 1 / 2, 2, 3, true, some (2 / 3)⟩) =
      clampCropToBounds ⟨1 / 2, 1 / 2, 2, 3, true, some (2 / 3)⟩ ∧
    ((⟨1 / 2, 1 / 2, 2, 3, true, some (2 / 3)⟩ : CropState).aspectLock = true ∧
        aspectTruthy (⟨1 / 2, 1 / 2, 2, 3, true, some (2 / 3)⟩ : CropState).lockedAspect →
      (clampCropToBounds ⟨1 / 2, 1 / 2, 2, 3, true, some (2 / 3)⟩).width *
          (⟨1 / 2, 1 / 2, 2, 3, true, some (2 / 3)⟩ : CropState).height =
        (clampCropToBounds ⟨1 / 2, 1 / 2, 2, 3, true, some (2 / 3)⟩).height *
          (⟨1 / 2, 1 / 2, 2, 3, true, some (2 / 3)⟩ : CropState).width) ∧
    (¬((⟨1 / 2, 1 / 2, 2, 3, true, some (2 / 3)⟩ : CropState).aspectLock = true ∧
        aspectTruthy (⟨1 / 2, 1 / 2, 2, 3, true, some (2 / 3)⟩ : CropState).lockedAspect) →
      clampCropToBounds ⟨1 / 2, 1 / 2, 2, 3, true, some (2 / 3)⟩ =
        { (⟨1 / 2, 1 / 2, 2, 3, true, some (2 / 3)⟩ : CropState) with
          x := max 0 (min (1 - max MIN_CROP_SIZE (min 1 (2 : ℚ))) (1 / 2 : ℚ))
          y := max 0 (min (1 - max MIN_CROP_SIZE (min 1 (3 : ℚ))) (1 / 2 : ℚ))
          width := max MIN_CROP_SIZE (min 1 (2 : ℚ))
          height := max MIN_CROP_SIZE (min 1 (3 : ℚ)) }) :=
  clamp_idempotent_and_structure ⟨1 / 2, 1 / 2, 2, 3, true, some (2 / 3)⟩
    (by norm_num) (by norm_num)

/-- Claim C6: dragging the `se` handle by `(dx: -0.1, dy: 0)` on the full
crop of a 2:1 image with locked pixel aspect 1 yields the crop
`{0, 0, 1/2, 1}` (top-left corner anchored), whose normalized
width/height aspect is exactly `0.5`: the corner rule computed candidate
widths 0.9 (from dx) and 0.5 (from dy via the aspect) and picked the
smaller. -/
theorem aspect_locked_se_resize_scenario :
    resizeCropFromHandle ⟨0, 0, 1, 1, true, some 1⟩ .se (-(1 / 10), 0) 2 =
      ⟨0, 0, 1 / 2, 1, true, some 1⟩ ∧
    (resizeCropFromHandle ⟨0, 0, 1, 1, true, some 1⟩ .se (-(1 / 10), 0) 2).width /
        (resizeCropFromHandle ⟨0, 0, 1, 1, true, some 1⟩ .se (-(1 / 10), 0) 2).height =
      1 / 2 := by
  constructor <;>
    simp only [resizeCropFromHandle, resizeCropAspectLocked, clampCropToBounds,
      clampLockedDims, clampLockedScaleUp, clampLockedScaleDown, aspectTruthy,
      MIN_CROP_SIZE, Option.getD_some] <;>
    norm_num [min_def, max_def, CropState.mk.injEq]

/-- Claim C9: numeric edge cases fall back to defaults: resolving the
`custom` ratio with non-positive width or height returns 1 (in particular
`resolve('custom', {width: 0, height: 5}) = 1`), and the fit scale with a
non-positive surface or effective image dimension is `SCALE_MIN`. -/
theorem numeric_edge_case_fallbacks :
    findRatioValue .custom { custom := (0, 5) } = 1 ∧
    (∀ (w h : ℚ) (image : Option ImageMetadata) (crop : Option CropState),
      ¬(0 < w ∧ 0 < h) →
      findRatioValue .custom { custom := (w, h), image := image, crop := crop } = 1) ∧
    (∀ (image : ImageMetadata) (canvasWidth canvasHeight : ℚ) (crop : Option CropState),
      canvasWidth ≤ 0 ∨ canvasHeight ≤ 0 ∨ (getEffectiveDimensions image crop).1 ≤ 0 ∨
          (getEffectiveDimensions image crop).2 ≤ 0 →
      computeFitScale image canvasWidth canvasHeight crop = SCALE_MIN) := by
  refine ⟨by decide, ?_, ?_⟩
  · intro w h image crop hwh
    simp [findRatioValue, hwh]
  · intro image canvasWidth canvasHeight crop hcond
    simp only [computeFitScale]
    rw [if_pos hcond]

/-- Witness for C9: the concrete custom-ratio guard and a zero surface
width. -/
theorem numeric_edge_case_fallbacks_witness :
    findRatioValue .custom { custom := (0, 5) } = 1 ∧
    computeFitScale ⟨4000, 3000⟩ 0 1000 none = SCALE_MIN :=
  ⟨numeric_edge_case_fallbacks.1,
   numeric_edge_case_fallbacks.2.2 ⟨4000, 3000⟩ 0 1000 none (Or.inl (by norm_num))⟩

/-- Claim C10: a crop with `aspectLock = true` but `lockedAspect` absent or
zero is resized freely (unlocked) by `resizeCropFromHandle`, and this
state is reachable: `setCropAspectLock(true)` without an aspect stores
`aspectLock = true, lockedAspect = undefined`. -/
theorem aspect_lock_without_value_free_resize
    (crop : CropState) (handle : Handle) (delta : ℚ × ℚ) (imageAspect : ℚ)
    (h : crop.lockedAspect = none ∨ crop.lockedAspect = some 0) :
    resizeCropFromHandle crop handle delta imageAspect = resizeCropFree crop handle delta ∧
    (setCropAspectLockCrop crop true none).aspectLock = true ∧
    (setCropAspectLockCrop crop true none).lockedAspect = none := by
  have hfalse : ¬(crop.aspectLock = true ∧ aspectTruthy crop.lockedAspect) := by
    rcases h with h | h <;> simp [aspectTruthy, h]
  refine ⟨?_, rfl, rfl⟩
  unfold resizeCropFromHandle
  rw [if_neg hfalse]

/-- Witness for C10 at a concrete locked-without-aspect crop. -/
theorem aspect_lock_without_value_free_resize_witness :
    resizeCropFromHandle ⟨0, 0, 1 / 2, 1 / 2, true, none⟩ .se (1 / 10, 1 / 10) 1 =
      resizeCropFree ⟨0, 0, 1 / 2, 1 / 2, true, none⟩ .se (1 / 10, 1 / 10) ∧
    (setCropAspectLockCrop ⟨0, 0, 1 / 2, 1 / 2, true, none⟩ true none).aspectLock = true ∧
    (setCropAspectLockCrop ⟨0, 0, 1 / 2, 1 / 2, true, none⟩ true none).lockedAspect = none :=
  aspect_lock_without_value_free_resize _ _ _ 1 (Or.inl rfl)

/-- Claim C7: for every pixel of the RGBA data and every intensity in [0,1],
LUT application writes each color channel as
`source·(1-intensity) + graded·intensity` (with the graded value from
trilinear interpolation), clamped into the valid range — the result is
always ≤ 255 — and leaves the alpha channel of every pixel unchanged
(the data length is also preserved). -/
theorem applyLUT_blend_alpha_spec (lut : LUTData) (intensity : ℚ) (data : List ℕ)
    (k : ℕ) (h0 : 0 ≤ intensity) (h1 : intensity ≤ 1)
    (hbytes : ∀ v ∈ data, v ≤ 255) (hk : 4 * k + 3 < data.length) :
    (applyLUTToData lut intensity data).length = data.length ∧
    (applyLUTToData lut intensity data).getD (4 * k + 3) 0 = data.getD (4 * k + 3) 0 ∧
    ((applyLUTToData lut intensity data).getD (4 * k) 0 =
      blendChannel intensity ((data.getD (4 * k) 0 : ℚ) / 255)
        (trilinearInterpolation lut ((data.getD (4 * k) 0 : ℚ) / 255)
          ((data.getD (4 * k + 1) 0 : ℚ) / 255) ((data.getD (4 * k + 2) 0 : ℚ) / 255)).1 ∧
    (applyLUTToData lut intensity data).getD (4 * k + 1) 0 =
      blendChannel intensity ((data.getD (4 * k + 1) 0 : ℚ) / 255)
        (trilinearInterpolation lut ((data.getD (4 * k) 0 : ℚ) / 255)
          ((data.getD (4 * k + 1) 0 : ℚ) / 255) ((data.getD (4 * k + 2) 0 : ℚ) / 255)).2.1 ∧
    (applyLUTToData lut intensity data).getD (4 * k + 2) 0 =
      blendChannel intensity ((data.getD (4 * k + 2) 0 : ℚ) / 255)
        (trilinearInterpolation lut ((data.getD (4 * k) 0 : ℚ) / 255)
          ((data.getD (4 * k + 1) 0 : ℚ) / 255) ((data.getD (4 * k + 2) 0 : ℚ) / 255)).2.2) ∧
    ((applyLUTToData lut intensity data).getD (4 * k) 0 ≤ 255 ∧
    (applyLUTToData lut intensity data).getD (4 * k + 1) 0 ≤ 255 ∧
    (applyLUTToData lut intensity data).getD (4 * k + 2) 0 ≤ 255) := by
  have hcl : max 0 (min 1 intensity) = intensity := by
    rw [min_eq_right h1, max_eq_right h0]
  have hm0 : data.getD (4 * k) 0 ∈ data := by
    rw [List.getD_eq_getElem data 0 (by omega)]
    exact List.getElem_mem (by omega)
  have hm1 : data.getD (4 * k + 1) 0 ∈ data := by
    rw [List.getD_eq_getElem data 0 (by omega)]
    exact List.getElem_mem (by omega)
  have hm2 : data.getD (4 * k + 2) 0 ∈ data := by
    rw [List.getD_eq_getElem data 0 (by omega)]
    exact List.getElem_mem (by omega)
  by_cases hz : intensity = 0
  · subst hz
    have hdata : applyLUTToData lut 0 data = data := by
      simp [applyLUTToData, hcl]
    rw [hdata]
    exact ⟨rfl, rfl,
      ⟨(blendChannel_zero _ (hbytes _ hm0) _).symm,
       (blendChannel_zero _ (hbytes _ hm1) _).symm,
       (blendChannel_zero _ (hbytes _ hm2) _).symm⟩,
      hbytes _ hm0, hbytes _ hm1, hbytes _ hm2⟩
  · have hdata : applyLUTToData lut intensity data = applyLUTLoop lut intensity data := by
      simp only [applyLUTToData, hcl]
      rw [if_neg hz]
    rw [hdata]
    have hloop := applyLUTLoop_getD lut intensity k data hk
    refine ⟨applyLUTLoop_length lut intensity data, hloop.1,
      ⟨?_, ?_, ?_⟩, ?_, ?_, ?_⟩
    · rw [hloop.2.1]; rfl
    · rw [hloop.2.2.1]; rfl
    · rw [hloop.2.2.2]; rfl
    · rw [hloop.2.1]; exact blendChannel_le _ _ _
    · rw [hloop.2.2.1]; exact blendChannel_le _ _ _
    · rw [hloop.2.2.2]; exact blendChannel_le _ _ _

/-- Witness for C7 on a 1-pixel image with the trivial 2-point LUT at
intensity 1/2. -/
theorem applyLUT_blend_alpha_spec_witness :
    (applyLUTToData ⟨2, List.replicate 24 0⟩ (1 / 2) [100, 150, 200, 7]).length =
      ([100, 150, 200, 7] : List ℕ).length ∧
    (applyLUTToData ⟨2, List.replicate 24 0⟩ (1 / 2) [100, 150, 200, 7]).getD (4 * 0 + 3) 0 =
      ([100, 150, 200, 7] : List ℕ).getD (4 * 0 + 3) 0 ∧
    ((applyLUTToData ⟨2, List.replicate 24 0⟩ (1 / 2) [100, 150, 200, 7]).getD (4 * 0) 0 =
      blendChannel (1 / 2) ((([100, 150, 200, 7] : List ℕ).getD (4 * 0) 0 : ℚ) / 255)
        (trilinearInterpolation ⟨2, List.replicate 24 0⟩
          ((([100, 150, 200, 7] : List ℕ).getD (4 * 0) 0 : ℚ) / 255)
          ((([100, 150, 200, 7] : List ℕ).getD (4 * 0 + 1) 0 : ℚ) / 255)
          ((([100, 150, 200, 7] : List ℕ).getD (4 * 0 + 2) 0 : ℚ) / 255)).1 ∧
    (applyLUTToData ⟨2, List.replicate 24 0⟩ (1 / 2) [100, 150, 200, 7]).getD (4 * 0 + 1) 0 =
      blendChannel (1 / 2) ((([100, 150, 200, 7] : List ℕ).getD (4 * 0 + 1) 0 : ℚ) / 255)
        (trilinearInterpolation ⟨2, List.replicate 24 0⟩
          ((([100, 150, 200, 7] : List ℕ).getD (4 * 0) 0 : ℚ) / 255)
          ((([100, 150, 200, 7] : List ℕ).getD (4 * 0 + 1) 0 : ℚ) / 255)
          ((([100, 150, 200, 7] : List ℕ).getD (4 * 0 + 2) 0 : ℚ) / 255)).2.1 ∧
    (applyLUTToData ⟨2, List.replicate 24 0⟩ (1 / 2) [100, 150, 200, 7]).getD (4 * 0 + 2) 0 =
      blendChannel (1 / 2) ((([100, 150, 200, 7] : List ℕ).getD (4 * 0 + 2) 0 : ℚ) / 255)
        (trilinearInterpolation ⟨2, List.replicate 24 0⟩
          ((([100, 150, 200, 7] : List ℕ).getD (4 * 0) 0 : ℚ) / 255)
          ((([100, 150, 200, 7] : List ℕ).getD (4 * 0 + 1) 0 : ℚ) / 255)
          ((([100, 150, 200, 7] : List ℕ).getD (4 * 0 + 2) 0 : ℚ) / 255)).2.2) ∧
    ((applyLUTToData ⟨2, List.replicate 24 0⟩ (1 / 2) [100, 150, 200, 7]).getD (4 * 0) 0 ≤ 255 ∧
    (applyLUTToData ⟨2, List.replicate 24 0⟩ (1 / 2) [100, 150, 200, 7]).getD (4 * 0 + 1) 0 ≤ 255 ∧
    (applyLUTToData ⟨2, List.replicate 24 0⟩ (1 / 2) [100, 150, 200, 7]).getD (4 * 0 + 2) 0 ≤ 255) :=
  applyLUT_blend_alpha_spec ⟨2, List.replicate 24 0⟩ (1 / 2) [100, 150, 200, 7] 0
    (by norm_num) (by norm_num) (by decide) (by decide)

/-- Claim C8: `.cube` loading fails when the declared `LUT_3D_SIZE` is
outside 2–256, and succeeds only when the final table length equals
`size³·3`; data values greater than 1 are normalized by dividing by 255;
a data line with a non-numeric (NaN) component is skipped without
aborting the parse. -/
theorem cube_loader_spec :
    (∀ (n : ℤ) (rest : List CubeLine) (size : ℕ) (data : List ℚ),
      n < 2 ∨ 256 < n →
      cubeParseLines (.sizeDecl (some n) :: rest) size data =
        .error "Invalid LUT_3D_SIZE") ∧
    (∀ (lines : List CubeLine) (out : ℕ × List ℚ),
      cubeLoad lines = .ok out → out.2.length = out.1 * out.1 * out.1 * 3) ∧
    (∀ (r g b : ℚ) (rest : List CubeLine) (size : ℕ) (data : List ℚ),
      cubeParseLines (.dataLine (some r) (some g) (some b) :: rest) size data =
        cubeParseLines rest size
          (data ++ [normalizeCubeValue r, normalizeCubeValue g, normalizeCubeValue b])) ∧
    (∀ v : ℚ, 1 < v → normalizeCubeValue v = v / 255) ∧
    (∀ (r g b : Option ℚ) (rest : List CubeLine) (size : ℕ) (data : List ℚ),
      r = none ∨ g = none ∨ b = none →
      cubeParseLines (.dataLine r g b :: rest) size data =
        cubeParseLines rest size data) := by
  refine ⟨?_, ?_, ?_, ?_, ?_⟩
  · intro n rest size data hn
    simp only [cubeParseLines]
    rw [if_pos hn]
  · intro lines out h
    unfold cubeLoad at h
    cases hp : cubeParseLines lines 32 [] with
    | error e => rw [hp] at h; exact absurd h (by simp)
    | ok parsed =>
      rw [hp] at h
      dsimp only at h
      cases hv : validateLUTData parsed.1 parsed.2.length with
      | error e => rw [hv] at h; exact absurd h (by simp)
      | ok u =>
        rw [hv] at h
        simp only [Except.ok.injEq] at h
        subst h
        unfold validateLUTData at hv
        split_ifs at hv with hlen hsz
        push_neg at hlen
        exact hlen
  · intro r g b rest size data
    rfl
  · intro v hv
    unfold normalizeCubeValue
    rw [if_pos hv]
  · intro r g b rest size data h
    rcases r with _ | rv <;> rcases g with _ | gv <;> rcases b with _ | bv <;>
      first
        | rfl
        | (rcases h with h | h | h <;> simp at h)

/-- Witness for C8: a size declaration of 300 fails; a successful load of
a size-2 cube with 8 data rows has table length `2³·3 = 24`; a value of 2
is normalized to 2/255; a NaN data row is skipped. -/
theorem cube_loader_spec_witness :
    cubeParseLines [.sizeDecl (some 300)] 32 [] = .error "Invalid LUT_3D_SIZE" ∧
    ((2 : ℕ), List.replicate 24 (1 : ℚ)).2.length =
      ((2 : ℕ), List.replicate 24 (1 : ℚ)).1 * ((2 : ℕ), List.replicate 24 (1 : ℚ)).1 *
        ((2 : ℕ), List.replicate 24 (1 : ℚ)).1 * 3 ∧
    normalizeCubeValue 2 = 2 / 255 ∧
    cubeParseLines [CubeLine.dataLine none (some 1) (some 1)] 5 [] =
      cubeParseLines [] 5 [] :=
  ⟨cube_loader_spec.1 300 [] 32 [] (by norm_num),
   cube_loader_spec.2.1
     (CubeLine.sizeDecl (some 2) ::
       List.replicate 8 (CubeLine.dataLine (some 1) (some 1) (some 1)))
     ((2 : ℕ), List.replicate 24 (1 : ℚ)) (by rfl),
   cube_loader_spec.2.2.2.1 2 (by norm_num),
   cube_loader_spec.2.2.2.2 none (some 1) (some 1) [] 5 [] (Or.inl rfl)⟩

end CanvasStudio
